import Mathlib

/-!
Verification of the `urb` quad-tree core (src/urb/quad.py, src/urb/boundary.py,
src/urb/math.py) against its specification.

Embedding conventions.

Coordinates are exact rationals (the Python code uses floats; every value the
claims mention is exactly representable), metric quantities (`distance_2d`,
`triangle_area`, areas, lengths, overlaps) are real numbers.

A quad tree is the inductive `Quad`: a leaf (`child == []`) or a node carrying
its stored `_rotation`, its two division ratios (`division[0]`, `division[1]`)
and two children.  A quad inside a tree is addressed by its path of `l`/`r`
choices from the root (the Python id string).  The root's `node` array of four
corner points is a separate parameter `T : Corners`, matching a root quad
whose four corners have been assigned.

The embedding has two layers.

Literal layer (source names: `Quad.divide`, `Quad.undivide`, `Quad.rotate`,
`coordinate`, `Quad.coordinate_a`, `Quad.coordinate_b`, `length`, `area`,
`Quad.by_id`, `Quad.crossover`, `Boundary.overlap`, `calc_boundaries`): the
source as written, with every Python-level failure returned as
`Except PyErr`.  Central among those failures: the `above`/`below`
properties (quad.py lines 125-143) have no base case when the root lacks a
link — `self.root.below` re-enters the same property (`root` returns `self`
on a root) — so in a tree with no vertical links *every* evaluation of
`self.below` or `self.above` recurses without bound and raises
`RecursionError`.  That crash sits on the main path of most operations:
`clean_cache` evaluates `self.below` on a root (line 347), `rotation()`
evaluates it on every quad (line 751), `coordinate` opens with
`if self.below:` (line 898), `coordinate_a`/`coordinate_b` check it on
divided quads (lines 994/1011), and `undivide` evaluates `self.above`
(line 385).  Each literal definition's doc comment cites the raising line
and records what state was already mutated when the exception propagates.

Repaired layer (`_fixed` names): the same code with a single named repair
per definition — for the tree operations, the missing `above`/`below` base
case read as "no link"; for `by_relative_id_fixed`, the undefined name
`index` read as the `_id` parameter; for the boundary attachments, the
record read through the string keys the readers use.  This layer documents
what the written recurrences compute once the slip is repaired; theorems
over it are supporting evidence only.  The per-quad corner/id caches
(`node[...]`, `_id_cache`) are write-once memoisation cleared by
`clean_cache`; the repaired layer models them by recomputation.
-/

namespace Urb

/-- A 2D point.  The source passes `(x, y)` pairs (tuples or 2-lists). -/
abbrev Pt := ℚ × ℚ

/-- The Python exception classes raised by the modelled code paths. -/
inductive PyErr where
  | keyError
  | nameError
  | typeError
  | attributeError
  | recursionError
deriving DecidableEq

/-- A position of a child below its parent: the `l`/`r` letters of an id
string (`Quad.position`, quad.py lines 788-803). -/
inductive Pos where
  | l
  | r
deriving DecidableEq

/-- A quad subtree.  `leaf rot` is an undivided quad (`child == []`) with
stored `_rotation = rot`; `node rot d left right` is a divided quad with
`division = [d.1, d.2]` and two children (`Quad.divided`, quad.py line 87:
children present and a division set — the `divide` operation always
establishes both together, lines 367-378). -/
inductive Quad where
  | leaf (rot : ℤ)
  | node (rot : ℤ) (d : ℚ × ℚ) (left right : Quad)
deriving DecidableEq

/-- The stored `_rotation` field of a quad.  The `rotation()` accessor
itself (quad.py lines 747-753) evaluates `self.below` at line 751 and
raises `RecursionError` in a linkless tree — see `Quad.rotate`; the
repaired-layer definitions read the stored field directly. -/
def Quad.rot : Quad → ℤ
  | .leaf r => r
  | .node r _ _ _ => r

/-- `Quad.divided` (quad.py lines 86-88): children present and a division
set; no vertical link is touched. -/
def Quad.divided : Quad → Bool
  | .leaf _ => false
  | .node _ _ _ _ => true

/-- The `left` property (quad.py lines 95-99): the first child when divided,
otherwise `None`; no vertical link is touched. -/
def Quad.left : Quad → Option Quad
  | .leaf _ => none
  | .node _ _ l _ => some l

/-- The `right` property (quad.py lines 101-105). -/
def Quad.right : Quad → Option Quad
  | .leaf _ => none
  | .node _ _ _ r => some r

/-- The quad reached from `q` by following a path of `l`/`r` choices. -/
def quadAt : Quad → List Pos → Option Quad
  | q, [] => some q
  | .leaf _, _ :: _ => none
  | .node _ _ l _, .l :: ps => quadAt l ps
  | .node _ _ _ r, .r :: ps => quadAt r ps

/-- The four-slot `node` corner array of a quad.  Corner lookups in the
source always reduce `index + rotation` modulo 4 (Python `%`, nonnegative),
so the array is exposed as `Corners.get` over integer indices. -/
structure Corners where
  c0 : Pt
  c1 : Pt
  c2 : Pt
  c3 : Pt

/-- `node[i % 4]`. -/
def Corners.get (T : Corners) (i : ℤ) : Pt :=
  if i % 4 = 0 then T.c0 else if i % 4 = 1 then T.c1 else if i % 4 = 2 then T.c2 else T.c3

/-- Linear interpolation `p * (1 - t) + q * t`, the arithmetic of
`Quad.coordinate_a` / `Quad.coordinate_b` (quad.py lines 996-1001 and
1013-1018). -/
def lerp (p q : Pt) (t : ℚ) : Pt :=
  (p.1 * (1 - t) + q.1 * t, p.2 * (1 - t) + q.2 * t)

/-- First endpoint of a quad's division line, given the quad's own corner
function `C` (rotation already applied) and `division[0]`: the arithmetic
of `Quad.coordinate_a` (quad.py lines 996-1001). -/
def division_point_a (C : ℤ → Pt) (d0 : ℚ) : Pt :=
  lerp (C 0) (C 1) d0

/-- Second endpoint of the division line, from corners 3 and 2 and
`division[1]`: the arithmetic of `Quad.coordinate_b` (quad.py lines
1013-1018). -/
def division_point_b (C : ℤ → Pt) (d1 : ℚ) : Pt :=
  lerp (C 3) (C 2) d1

/-- The unrotated corner table a child derives from its parent
(`Quad.coordinate`, quad.py lines 908-928): a left child keeps the parent's
corners 0 and 3 and takes the division endpoints as corners 1 and 2; a right
child takes the division endpoints as corners 0 and 3 and keeps the parent's
corners 1 and 2.  `C` is the parent's corner function with the parent's own
rotation applied (the source calls `self.parent.coordinate(...)` /
`self.parent.coordinate_a`). -/
def childTable (C : ℤ → Pt) (d : ℚ × ℚ) : Pos → Corners
  | .l => ⟨C 0, division_point_a C d.1, division_point_b C d.2, C 3⟩
  | .r => ⟨division_point_a C d.1, C 1, C 2, division_point_b C d.2⟩

/-- Repaired layer.  The corner function of the quad at path `p`, with that
quad's own rotation applied: `fun i => quad.coordinate(i)` (quad.py lines
891-930) under the single repair that the opening `if self.below:` test
(line 898) reads the absent link as `None` instead of raising — see
`coordinate` for the literal behaviour.  `T` is the unrotated corner table
of the current subtree's top quad (for the whole tree, the root's assigned
`node` array).  Walking one level down passes the `childTable` derived from
the parent's corner function, exactly as the source's recursive calls do;
the memoisation into `self.node` is modelled by recomputation. -/
def coordFunAt_fixed (T : Corners) : Quad → List Pos → Option (ℤ → Pt)
  | q, [] => some fun i => T.get (i + q.rot)
  | .leaf _, _ :: _ => none
  | .node r d l _, .l :: ps =>
      coordFunAt_fixed (childTable (fun i => T.get (i + r)) d .l) l ps
  | .node r d _ rc, .r :: ps =>
      coordFunAt_fixed (childTable (fun i => T.get (i + r)) d .r) rc ps

/-- Repaired layer: `quad.coordinate(i)` for the quad at path `p` under the
`below` repair, `none` when the path does not address a quad. -/
def coordinate_fixed (T : Corners) (Q : Quad) (p : List Pos) (i : ℤ) : Option Pt :=
  (coordFunAt_fixed T Q p).map fun C => C i

/-- `Quad.coordinate(index)` (quad.py lines 891-930) as written: the first
statement `if self.below:` evaluates the `below` property, which recurses
without bound in a tree with no vertical links (quad.py lines 135-143), so
the call raises `RecursionError` for every quad before the corner cache,
rotation or index is consulted — hence the unused parameters. -/
def coordinate (_T : Corners) (_Q : Quad) (_p : List Pos) (_i : ℤ) :
    Except PyErr (Option Pt) :=
  .error .recursionError

/-- Repaired layer: `Quad.coordinate_a` for the quad at path `p` (quad.py
lines 986-1001) under the `below` repair (line 994 reads the absent link as
`None`): `None` when the quad is not divided, else the interpolation
between its corners 0 and 1 at `division[0]`. -/
def coordinate_a_fixed (T : Corners) (Q : Quad) (p : List Pos) : Option Pt :=
  match quadAt Q p, coordFunAt_fixed T Q p with
  | some (.node _ d _ _), some C => some (division_point_a C d.1)
  | _, _ => none

/-- Repaired layer: `Quad.coordinate_b` for the quad at path `p` (quad.py
lines 1003-1018) under the `below` repair (line 1011). -/
def coordinate_b_fixed (T : Corners) (Q : Quad) (p : List Pos) : Option Pt :=
  match quadAt Q p, coordFunAt_fixed T Q p with
  | some (.node _ d _ _), some C => some (division_point_b C d.2)
  | _, _ => none

/-- `Quad.coordinate_a` (quad.py lines 986-1001) as written: an undivided
quad returns `None` at lines 992-993 without touching the vertical links; a
divided quad then evaluates `self.below is not None` (line 994), which
recurses without bound and raises `RecursionError`. -/
def Quad.coordinate_a : Quad → Except PyErr (Option Pt)
  | .leaf _ => .ok none
  | .node _ _ _ _ => .error .recursionError

/-- `Quad.coordinate_b` (quad.py lines 1003-1018) as written: `None` for an
undivided quad (lines 1009-1010), `RecursionError` at the `self.below`
check (line 1011) for a divided one. -/
def Quad.coordinate_b : Quad → Except PyErr (Option Pt)
  | .leaf _ => .ok none
  | .node _ _ _ _ => .error .recursionError

/-- `distance_2d` (math.py lines 48-52): 0 when either argument is `None`,
else the Euclidean distance. -/
noncomputable def distance_2d : Option Pt → Option Pt → ℝ
  | none, _ => 0
  | _, none => 0
  | some a, some b =>
      Real.sqrt (((a.1 : ℝ) - (b.1 : ℝ)) ^ 2 + ((a.2 : ℝ) - (b.2 : ℝ)) ^ 2)

/-- `triangle_area` (math.py lines 158-164): Heron's formula from the three
pairwise `distance_2d` values. -/
noncomputable def triangle_area (a b c : Option Pt) : ℝ :=
  let A := distance_2d b c
  let B := distance_2d a c
  let C := distance_2d a b
  let S := (A + B + C) / 2
  Real.sqrt (S * (S - A) * (S - B) * (S - C))

/-- `Quad.area` (quad.py lines 778-785) as written: each of the
`self.coordinate(...)` calls opens with `if self.below:` (line 898) and
raises `RecursionError`, so the Heron sum is never computed. -/
noncomputable def area (T : Corners) (Q : Quad) (p : List Pos) : Except PyErr ℝ := do
  let c0 ← coordinate T Q p 0
  let c1 ← coordinate T Q p 1
  let c2 ← coordinate T Q p 2
  let c3 ← coordinate T Q p 3
  return triangle_area c0 c1 c2 + triangle_area c0 c2 c3

/-- Repaired layer: `Quad.area` over `coordinate_fixed`. -/
noncomputable def area_fixed (T : Corners) (Q : Quad) (p : List Pos) : ℝ :=
  triangle_area (coordinate_fixed T Q p 0) (coordinate_fixed T Q p 1)
      (coordinate_fixed T Q p 2) +
    triangle_area (coordinate_fixed T Q p 0) (coordinate_fixed T Q p 2)
      (coordinate_fixed T Q p 3)

/-- `Quad.length(index)` (quad.py lines 1078-1084) as written: both
`self.coordinate(...)` calls raise `RecursionError` at `if self.below:`
(line 898), so the distance — and in particular `distance_2d`'s `None`
guard — is never reached. -/
noncomputable def length (T : Corners) (Q : Quad) (p : List Pos) (e : ℤ) :
    Except PyErr ℝ := do
  let a ← coordinate T Q p e
  let b ← coordinate T Q p (e + 1)
  return distance_2d a b

/-- Repaired layer: `Quad.length(index)` over `coordinate_fixed` — the
distance between corner `index` and corner `index + 1` of the quad at path
`p`. -/
noncomputable def length_fixed (T : Corners) (Q : Quad) (p : List Pos) (e : ℤ) : ℝ :=
  distance_2d (coordinate_fixed T Q p e) (coordinate_fixed T Q p (e + 1))

/-- `normalise_2d` (math.py lines 91-96): `(0, 1)` when the norm is zero,
else the components divided by the norm.  A pure function with no quad
involvement. -/
noncomputable def normalise_2d (v : Pt) : ℝ × ℝ :=
  let scalar := distance_2d (some (0, 0)) (some v)
  if scalar = 0 then ((0 : ℝ), (1 : ℝ))
  else ((v.1 : ℝ) / scalar, (v.2 : ℝ) / scalar)

/-- Replace a quad's stored `_rotation`, keeping everything else. -/
def Quad.withRot : Quad → ℤ → Quad
  | .leaf _, r => .leaf r
  | .node _ d l rc, r => .node r d l rc

/-- `Quad.rotate` (quad.py lines 475-480) as written: it calls
`self.rotation(self._rotation + 1)`, which stores the value modulo 4
(line 749) and then raises `RecursionError` — on a root inside
`clean_cache` (line 750, whose first condition evaluates `self.below` at
line 347), on any other quad at line 751's own `self.below` check — so the
incremented rotation is already stored when the exception propagates, but
the call never returns `True` (line 480). -/
def Quad.rotate (q : Quad) : Quad × Except PyErr Bool :=
  (q.withRot ((q.rot + 1) % 4), .error .recursionError)

/-- Repaired layer: `Quad.rotate` under the `below` repair — the stored
rotation is incremented modulo 4 and caches are invalidated; nothing else
changes. -/
def Quad.rotate_fixed (q : Quad) : Quad :=
  q.withRot ((q.rot + 1) % 4)

/-- Four successive repaired `rotate()` calls. -/
def rotateFour_fixed (q : Quad) : Quad :=
  q.rotate_fixed.rotate_fixed.rotate_fixed.rotate_fixed

/-- Apply an in-place operation to the quad at path `p`, rebuilding the tree
around it; `none` when the path does not address a quad. -/
def modifyAt (f : Quad → Quad) : Quad → List Pos → Option Quad
  | q, [] => some (f q)
  | .leaf _, _ :: _ => none
  | .node r d l rc, .l :: ps => (modifyAt f l ps).map fun x => .node r d x rc
  | .node r d l rc, .r :: ps => (modifyAt f rc ps).map fun x => .node r d l x

/-- `Quad.divide(ratios)` (quad.py lines 367-378) as written.  `hasParent`
stands for `self.parent is not None`.  The division is stored first — to
`ratios` when one is passed, else to `[0.5, 0.5]` (lines 368-371).  Then
`clean_cache` (line 372): on a quad *without* a parent its first condition
evaluates `self.below` (line 347) and raises `RecursionError` (the new
ratios are already stored at that point, but no children are allocated and
nothing is returned); on a quad *with* a parent both vertical checks
short-circuit on `self.parent`, so the call completes — an already-divided
quad keeps its children, carries the new ratios and the method returns
Python `None` through the bare `return` at line 374 (modelled `none`),
while a leaf gets two fresh children appended (`Quad(self)`: rotation 0, no
division) and `True` (lines 376-378). -/
def Quad.divide (hasParent : Bool) : Quad → Option (ℚ × ℚ) →
    Except PyErr (Quad × Option Bool) :=
  fun q ratios =>
    if hasParent then
      match q with
      | .leaf r => .ok (.node r (ratios.getD (1/2, 1/2)) (.leaf 0) (.leaf 0), some true)
      | .node r _ l rc => .ok (.node r (ratios.getD (1/2, 1/2)) l rc, none)
    else .error .recursionError

/-- Repaired layer: `Quad.divide(ratios)` under the `below` repair, on the
quad's own subtree.  The division is set first, caches are invalidated,
then the early `if self.left is not None: return` fires (Python `None`,
modelled `none`) so an already-divided quad keeps its children but gets the
new ratios; a leaf gets two fresh children and `True`. -/
def Quad.divide_fixed : Quad → Option (ℚ × ℚ) → Quad × Option Bool
  | .leaf r, ratios => (.node r (ratios.getD (1/2, 1/2)) (.leaf 0) (.leaf 0), some true)
  | .node r _ l rc, ratios => (.node r (ratios.getD (1/2, 1/2)) l rc, none)

/-- `Quad.undivide` (quad.py lines 380-391) as written: a leaf returns
`False` immediately (lines 381-382, no vertical access).  A divided quad
first recurses into both children (lines 383-384; leaf children return
`False`, a divided child raises at its own line 385), then evaluates
`self.above` (line 385), which recurses without bound and raises
`RecursionError` for every quad in a linkless tree — *before*
`del self.child[...]` (lines 388-390) runs, so no child slot is ever
discarded and the quad stays divided. -/
def Quad.undivide : Quad → Except PyErr (Quad × Bool)
  | .leaf r => .ok (.leaf r, false)
  | .node _ _ l rc => do
      let _ ← l.undivide
      let _ ← rc.undivide
      .error .recursionError

/-- Repaired layer: `Quad.undivide` under the `above` repair — `False` on a
leaf; otherwise the children are recursively undivided and then both child
slots are discarded. -/
def Quad.undivide_fixed : Quad → Quad × Bool
  | .leaf r => (.leaf r, false)
  | .node r _ l rc =>
      let _ := l.undivide_fixed
      let _ := rc.undivide_fixed
      (.leaf r, true)

/-- `Quad.by_relative_id` (quad.py lines 233-248).  As written the body's
first statement is `rel = list(filter(lambda x: x in ("l","r"), index))`, but
the parameter is named `_id` and no `index` is in scope (quad.py line 234),
so every call raises `NameError` before looking at the tree. -/
def Quad.by_relative_id (_q : Quad) (_s : String) : Except PyErr (Option Quad) :=
  .error .nameError

/-- `Quad.by_id` (quad.py lines 260-261): `self.root.by_relative_id(_id)`.
A `Quad` value in this embedding is addressed from its own root. -/
def Quad.by_id (q : Quad) (s : String) : Except PyErr (Option Quad) :=
  q.by_relative_id s

/-- The `l`/`r` letters of an id string, in order (the filter in
quad.py line 234 as intended). -/
def strToPos (s : String) : List Pos :=
  s.toList.filterMap fun c =>
    if c = 'l' then some .l else if c = 'r' then some .r else none

/-- The body of `by_relative_id` with the one evident repair (the undefined
name `index` read as the `_id` parameter): an empty id on an undivided quad
yields `None` (quad.py lines 236-237) — even for a root — an empty id on a
divided quad yields the quad itself, a single letter yields the `left`/
`right` property (which is `None` on a leaf), and a longer id recurses into
the child; on a leaf that recursion is `None.by_relative_id(...)`, an
`AttributeError`. -/
def by_relative_id_fixed : Quad → List Pos → Except PyErr (Option Quad)
  | .leaf _, [] => .ok none
  | q@(.node _ _ _ _), [] => .ok (some q)
  | q, [p] => .ok (match p with | .l => q.left | .r => q.right)
  | .leaf _, _ :: _ :: _ => .error .attributeError
  | .node _ _ l _, .l :: p :: ps => by_relative_id_fixed l (p :: ps)
  | .node _ _ _ rc, .r :: p :: ps => by_relative_id_fixed rc (p :: ps)

/-- `by_id` over the repaired walker. -/
def by_id_fixed (q : Quad) (s : String) : Except PyErr (Option Quad) :=
  by_relative_id_fixed q (strToPos s)

/-- `Quad.crossover(alien)` (quad.py lines 496-547).  `False` for a `None`
argument (line 501-502).  For any real argument the ancestry check
`for p in alien.parents:` (line 504) iterates the *bound method* `parents`
— `Quad.parents` (quad.py lines 266-276) takes an accumulator argument and
is not a property — so Python raises `TypeError: argument of type "method"
is not iterable` before any state is touched (the first mutation would be
`self.undivide()` at line 514; `self.clone()` at line 512 would itself raise
`TypeError` on `self.coordinate[:]`, quad.py line 664). -/
def Quad.crossover (_q : Quad) (alien : Option Quad) : Except PyErr Bool :=
  match alien with
  | none => .ok false
  | some _ => .error .typeError

/-- The id string of a path (`Quad._id`, quad.py lines 805-823). -/
def idString (p : List Pos) : String :=
  String.mk (p.map fun x => match x with | .l => 'l' | .r => 'r')

/-- `"abcd"[index]` for an index already reduced modulo 4
(`Quad.boundary_id`, quad.py line 1122). -/
def outerTag (j : ℤ) : String :=
  if j = 0 then "a" else if j = 1 then "b" else if j = 2 then "c" else "d"

/-- Repaired layer: `Quad.boundary_id` walking upward (quad.py lines
1105-1127) under the `below` repair — the source calls `self.rotation()` at
line 1120, which as written evaluates `self.below` (line 751) and raises
`RecursionError`; repaired, it reads the stored rotation.  The path from
the quad to the root is given in reverse (`rp.reverse` is the path from the
root).  At each level the index is offset by that quad's own rotation and
reduced modulo 4; a left child's edge 1 and a right child's edge 3 answer
with the parent's id, the root answers with an outer tag, and otherwise the
walk continues at the parent with the reduced index. -/
def boundary_id_rev_fixed (Q : Quad) : List Pos → ℤ → Option String
  | rp, i =>
    match quadAt Q rp.reverse with
    | none => none
    | some q =>
      let j := (i + q.rot) % 4
      match rp with
      | [] => some (outerTag j)
      | pos :: rest =>
          if (pos = .l ∧ j = 1) ∨ (pos = .r ∧ j = 3) then some (idString rest.reverse)
          else boundary_id_rev_fixed Q rest j

/-- Repaired layer: `Quad.boundary_id(index)` of the quad at path `p`. -/
def boundary_id_fixed (Q : Quad) (p : List Pos) (i : ℤ) : Option String :=
  boundary_id_rev_fixed Q p.reverse i

/-- One attachment on a boundary, as intended by the reading code: a record
with a `quad` (modelled by its path) and an `id_edge`.  `Boundary.add_edges`
(boundary.py line 55) actually appends the Python dict literal
`dict((quad, quad), (id_edge, id_edge))` — the *objects* are the keys — so
the string lookups `item["quad"]` / `item["id_edge"]` used by every reader
(boundary.py lines 64-65, 89-92) find no such key and raise `KeyError`.
The fields below hold the two stored values; `Boundary.find_edges` models
the failing string lookup. -/
structure Attachment where
  quad : List Pos
  id_edge : ℤ
deriving DecidableEq

/-- A boundary is a list of attachments (class `Boundary(list)`,
boundary.py line 45). -/
abbrev Boundary := List Attachment

/-- `Boundary.add_edges` (boundary.py lines 51-55): append an attachment. -/
def Boundary.add_edges (bd : Boundary) (quad : List Pos) (id_edge : ℤ) : Boundary :=
  bd ++ [⟨quad, id_edge⟩]

/-- `Boundary._find_edges` (boundary.py lines 86-93) as written: the loop
body's first expression `item["quad"]` raises `KeyError` on the malformed
attachment record (see `Attachment`), so any nonempty boundary fails; an
empty boundary returns `(None, None)`. -/
def Boundary.find_edges (bd : Boundary) (_qa _qb : List Pos) :
    Except PyErr (Option ℤ × Option ℤ) :=
  match bd with
  | [] => .ok (none, none)
  | _ :: _ => .error .keyError

/-- `Boundary._find_edges` with the attachment record repaired to the string
keys the readers use: the loop keeps the last matching assignment for each
quad (boundary.py lines 88-93). -/
def find_edges_intent (bd : Boundary) (qa qb : List Pos) : Option ℤ × Option ℤ :=
  bd.foldl
    (fun acc it =>
      ((if it.quad = qa then some it.id_edge else acc.1),
       (if it.quad = qb then some it.id_edge else acc.2)))
    (none, none)

/-- `Boundary._id` (boundary.py lines 57-65) over repaired records and the
repaired `boundary_id` (the literal one raises, see
`boundary_id_rev_fixed`): `None` for an empty boundary, else the first
attachment's `boundary_id`. -/
def boundary_id_head (Q : Quad) (bd : Boundary) : Option String :=
  match bd with
  | [] => none
  | ed :: _ => boundary_id_fixed Q ed.quad ed.id_edge

/-- The tail of `Boundary.overlap` after the edges are found (boundary.py
lines 105-132), over the repaired layer (the literal `boundary_id`,
`length` and `coordinate` would all raise `RecursionError`): 0 when
`self._id` is **not** one of the four outer tags `a`/`b`/`c`/`d` (line 105:
`if not self._id in ("a","b","c","d"): return 0.0` — so every interior,
branch-id boundary yields 0), 0 when either quad's own `boundary_id` for
its edge disagrees with `self._id`, otherwise the edge-span formula: with
`d` the maximum of the four endpoint-pair distances, `length_a` if
`d ≤ length_b`, else `length_b` if `d ≤ length_a`, else
`length_a + length_b - d`. -/
noncomputable def overlap_body (T : Corners) (Q : Quad) (bd : Boundary)
    (qa qb : List Pos) (ea eb : ℤ) : ℝ :=
  let bid := boundary_id_head Q bd
  if bid ∉ ([some "a", some "b", some "c", some "d"] : List (Option String)) then 0
  else if boundary_id_fixed Q qa ea ≠ bid ∨ boundary_id_fixed Q qb eb ≠ bid then 0
  else
    let length_a := length_fixed T Q qa ea
    let length_b := length_fixed T Q qb eb
    let ca0 := coordinate_fixed T Q qa ea
    let ca1 := coordinate_fixed T Q qa (ea + 1)
    let cb0 := coordinate_fixed T Q qb eb
    let cb1 := coordinate_fixed T Q qb (eb + 1)
    let d := max (max (distance_2d ca0 cb0) (distance_2d ca0 cb1))
                 (max (distance_2d ca1 cb0) (distance_2d ca1 cb1))
    if d ≤ length_b then length_a
    else if d ≤ length_a then length_b
    else length_a + length_b - d

/-- `Boundary.overlap(quad_a, quad_b)` (boundary.py lines 95-132) as written:
`_find_edges` runs first, so a nonempty boundary raises `KeyError` (see
`Attachment`) and an empty one returns 0.0 through the
`edge_a is None or edge_b is None` guard; the remaining body (which line 105
would anyway cut to 0.0 on every interior boundary) is unreachable. -/
noncomputable def Boundary.overlap (T : Corners) (Q : Quad) (bd : Boundary)
    (qa qb : List Pos) : Except PyErr ℝ :=
  match Boundary.find_edges bd qa qb with
  | .error e => .error e
  | .ok (some ea, some eb) => .ok (overlap_body T Q bd qa qb ea eb)
  | .ok _ => .ok 0

/-- `Boundary.overlap` over the repaired layer (attachment records readable
and the `below` base case repaired): what the rest of the body computes
once `_find_edges` can actually read the attachments. -/
noncomputable def overlap_intent (T : Corners) (Q : Quad) (bd : Boundary)
    (qa qb : List Pos) : ℝ :=
  match find_edges_intent bd qa qb with
  | (some ea, some eb) => overlap_body T Q bd qa qb ea eb
  | _ => 0

/-- A Python value produced by the `branches` property (quad.py lines
311-322): a bare `Quad` object, a list, or a tuple. -/
inductive PyVal where
  | quad (p : List Pos)
  | pylist (xs : List PyVal)
  | tuple (xs : List PyVal)

/-- `Quad.branches` (quad.py lines 311-322) for the quad at path `p`: a bare
quad for an undivided root, an empty list for an undivided child, and the
*nested tuple* `(self, self.left.branches, self.right.branches)` for a
divided quad — the recursion is never flattened.  No vertical link is
touched. -/
def branches : Quad → List Pos → PyVal
  | .leaf _, [] => .quad []
  | .leaf _, _ :: _ => .pylist []
  | .node _ _ l rc, p => .tuple [.quad p, branches l (p ++ [.l]), branches rc (p ++ [.r])]

/-- `branch._id` inside the dict comprehension of `calc_boundaries`
(quad.py line 1160): a bare quad has an `_id`; a list or tuple element does
not, so Python raises `AttributeError`. -/
def branch_key : PyVal → Except PyErr String
  | .quad p => .ok (idString p)
  | .pylist _ => .error .attributeError
  | .tuple _ => .error .attributeError

/-- The keys of `dict((branch._id, Boundary()) for branch in self.branches)`
(quad.py line 1160): iterating a bare `Quad` raises `TypeError`; iterating a
list or tuple looks up `_id` on each element. -/
def dict_keys_of_branches : PyVal → Except PyErr (List String)
  | .quad _ => .error .typeError
  | .pylist xs => xs.mapM branch_key
  | .tuple xs => xs.mapM branch_key

/-- `Quad.calc_boundaries` (quad.py lines 1151-1167) as written.  The dict
comprehension over `self.branches` (line 1160) fails on every tree: a bare
root leaf is not iterable (`TypeError`), and a divided root's tuple contains
its children's `branches` values — lists or tuples — which have no `_id`
(`AttributeError`).  Even if it survived, the leaf loop (line 1165) calls
`Boundary.add_edge`, a method the class does not define (boundary.py
defines `add_edges`, line 51), raising `AttributeError`. -/
def calc_boundaries (Q : Quad) : Except PyErr Unit := do
  let _ ← dict_keys_of_branches (branches Q [])
  .error .attributeError

/-- The root `node` array of the specification's running example: corners
`(0,0), (10,0), (10,10), (0,10)`. -/
def square10 : Corners := ⟨(0, 0), (10, 0), (10, 10), (0, 10)⟩

/-- The tree that `divide([0.5, 0.5])` on a rotation-0 root leaf *would*
produce (repaired layer): the literal `divide` on a root raises
`RecursionError` in `clean_cache` — see `Quad.divide` and
`divide_half_end_to_end_crashes`. -/
def dividedSquare10 : Quad := (Quad.divide_fixed (.leaf 0) (some (1/2, 1/2))).1

/-- Expose `distance_2d` on two present points. -/
theorem distance_eval (x1 y1 x2 y2 : ℚ) :
    distance_2d (some (x1, y1)) (some (x2, y2)) =
      Real.sqrt (((x1 : ℝ) - (x2 : ℝ)) ^ 2 + ((y1 : ℝ) - (y2 : ℝ)) ^ 2) := rfl

/-- Evaluate a square root at a perfect square. -/
theorem sqrt_of_sq (a b : ℝ) (ha : 0 ≤ a) (h : b = a ^ 2) : Real.sqrt b = a := by
  rw [h, Real.sqrt_sq ha]

/-- Counterexample to C10 as stated: its consequence clause says an
edge-length computation fed an uncomputed corner yields 0 rather than
failing, but `length` (quad.py lines 1078-1084) raises `RecursionError` at
`coordinate`'s `if self.below:` (line 898) before `distance_2d`'s `None`
guard can ever see a corner — here on edge 0 of the divided square's left
child — so it fails rather than yields 0. -/
theorem distance_2d_none_counterexample :
    length square10 dividedSquare10 [Pos.l] 0 = .error .recursionError ∧
      (Except.error PyErr.recursionError : Except PyErr ℝ) ≠ .ok 0 :=
  ⟨rfl, fun h => nomatch h⟩

/-- C10 (amended): `distance_2d` itself treats a missing point as distance
zero — `None` on either side gives 0 (math.py lines 50-51) — but no
edge-length computation ever benefits: `length` raises `RecursionError` at
`coordinate`'s opening `self.below` test (quad.py line 898) for every quad
and every edge, and `overlap` raises `KeyError` on any attached pair (see
`overlap_never_positive`), so those computations fail rather than yield 0. -/
theorem distance_2d_none_is_zero :
    (∀ p : Option Pt, distance_2d none p = 0 ∧ distance_2d p none = 0) ∧
      ∀ (T : Corners) (Q : Quad) (path : List Pos) (e : ℤ),
        length T Q path e = .error .recursionError :=
  ⟨fun p => ⟨by cases p <;> rfl, by cases p <;> rfl⟩, fun _ _ _ _ => rfl⟩

/-- C9: `normalise_2d` is total at the zero vector — when the Euclidean norm
is 0 it returns the unit vector `(0, 1)` (math.py lines 94-95), otherwise
the vector divided by its norm (line 96). -/
theorem normalise_2d_total (v : Pt) :
    (distance_2d (some (0, 0)) (some v) = 0 → normalise_2d v = ((0 : ℝ), (1 : ℝ))) ∧
    (distance_2d (some (0, 0)) (some v) ≠ 0 →
      normalise_2d v = ((v.1 : ℝ) / distance_2d (some (0, 0)) (some v),
                        (v.2 : ℝ) / distance_2d (some (0, 0)) (some v))) := by
  constructor <;> intro h <;>
    simp only [normalise_2d] <;> [rw [if_pos h]; rw [if_neg h]]

/-- Witness for C9: the zero vector normalises to `(0, 1)` and `(3, 4)`
normalises to `(3/5, 4/5)`. -/
theorem normalise_2d_total_witness :
    normalise_2d ((0 : ℚ), (0 : ℚ)) = ((0 : ℝ), (1 : ℝ)) ∧
      normalise_2d ((3 : ℚ), (4 : ℚ)) = ((3 / 5 : ℝ), (4 / 5 : ℝ)) := by
  have h0 : distance_2d (some ((0 : ℚ), (0 : ℚ))) (some ((0 : ℚ), (0 : ℚ))) = 0 := by
    rw [distance_eval]
    norm_num
  have h5 : distance_2d (some ((0 : ℚ), (0 : ℚ))) (some ((3 : ℚ), (4 : ℚ))) = 5 := by
    rw [distance_eval]
    push_cast
    norm_num
    exact sqrt_of_sq 5 25 (by norm_num) (by norm_num)
  refine ⟨(normalise_2d_total ((0 : ℚ), (0 : ℚ))).1 h0, ?_⟩
  have h2 := (normalise_2d_total ((3 : ℚ), (4 : ℚ))).2 (by rw [h5]; norm_num)
  rw [h5] at h2
  rw [h2]
  norm_num

/-- C4: the divide/undivide round trip never completes in the source.  On a
root leaf, `divide` itself raises `RecursionError` in `clean_cache`
(quad.py line 372, whose first condition evaluates `self.below`, line 347).
On a leaf with a parent, `divide` succeeds, but `undivide` then raises
`RecursionError` at `self.above` (quad.py line 385) *before* either child
slot is discarded — so the quad is left divided, not with `divided ==
False` and cleared children as claimed. -/
theorem divide_undivide_round_trip_crashes (r : ℤ) :
    Quad.divide false (.leaf r) (some (1/2, 1/2)) = .error .recursionError ∧
      Quad.divide true (.leaf r) (some (1/2, 1/2))
        = .ok (.node r (1/2, 1/2) (.leaf 0) (.leaf 0), some true) ∧
      Quad.undivide (.node r (1/2, 1/2) (.leaf 0) (.leaf 0)) = .error .recursionError ∧
      (Quad.node r (1/2, 1/2) (.leaf 0) (.leaf 0)).divided = true :=
  ⟨rfl, rfl, rfl, rfl⟩

/-- Supporting: under the `above`/`below` repair the round trip does behave
as the spec intends — dividing a leaf with `[0.5, 0.5]` and undividing
again leaves it undivided with both child slots cleared (quad.py lines
367-391 minus the vertical-link crashes). -/
theorem divide_undivide_round_trip_fixed (r : ℤ) :
    ((Quad.divide_fixed (.leaf r) (some (1/2, 1/2))).1.undivide_fixed).1 = .leaf r ∧
      ((Quad.divide_fixed (.leaf r) (some (1/2, 1/2))).1.undivide_fixed).1.divided = false ∧
      ((Quad.divide_fixed (.leaf r) (some (1/2, 1/2))).1.undivide_fixed).2 = true := by
  exact ⟨rfl, rfl, rfl⟩

/-- Counterexample to C6 as stated: on an already-divided quad *with a
parent* and ratios `[3/10, 7/10]`, `divide(None)` returns Python `None` —
not the boolean `False` — and does change state: the ratios are overwritten
with the default `[0.5, 0.5]` (quad.py lines 367-374); and on an
already-divided *root* it does not return `False` either — it raises
`RecursionError` in `clean_cache` (quad.py line 372 → 347). -/
theorem divide_already_divided_counterexample :
    Quad.divide true (.node 0 (3/10, 7/10) (.leaf 0) (.leaf 0)) none =
        .ok (.node 0 (1/2, 1/2) (.leaf 0) (.leaf 0), none) ∧
      (.node 0 (1/2, 1/2) (.leaf 0) (.leaf 0) : Quad) ≠
        .node 0 (3/10, 7/10) (.leaf 0) (.leaf 0) ∧
      Quad.divide false (.node 0 (3/10, 7/10) (.leaf 0) (.leaf 0)) none =
        .error .recursionError := by
  refine ⟨rfl, ?_, rfl⟩
  simp only [ne_eq, Quad.node.injEq, Prod.mk.injEq]
  norm_num

/-- C6 amended: on an already-divided quad *with a parent*, `divide(ratios)`
returns Python `None` (not the boolean `False`), replaces the division
ratios with the given pair — or with the default `[0.5, 0.5]` when called
with `None` — after invalidating caches, and allocates no children
(quad.py lines 367-374); on an already-divided *root*, the new ratios are
stored but `clean_cache` raises `RecursionError` (quad.py line 372 → 347)
before the method returns. -/
theorem divide_already_divided_amended (r : ℤ) (d : ℚ × ℚ) (l rc : Quad)
    (ratios : Option (ℚ × ℚ)) :
    Quad.divide true (.node r d l rc) ratios
        = .ok (.node r (ratios.getD (1/2, 1/2)) l rc, none) ∧
      Quad.divide false (.node r d l rc) ratios = .error .recursionError :=
  ⟨rfl, rfl⟩

/-- C5: `crossover` never reaches its ancestor check — for every non-`None`
argument (ancestor-related or not) the expression `for p in alien.parents:`
(quad.py line 504) iterates the bound method `parents` and raises
`TypeError` before any mutation; only a `None` argument returns `False`. -/
theorem crossover_raises_before_ancestor_check :
    (∀ q a : Quad, q.crossover (some a) = .error .typeError) ∧
      (∀ q : Quad, q.crossover none = .ok false) :=
  ⟨fun _ _ => rfl, fun _ => rfl⟩

/-- C8: `by_id` never walks the id string — `by_relative_id` reads the
undefined name `index` (quad.py line 234) and raises `NameError` on every
call, including `root.by_id("")`. -/
theorem by_id_always_raises (q : Quad) (s : String) :
    q.by_id s = .error .nameError := rfl

/-- Even with `index` repaired to the `_id` parameter, `by_id("")` on an
*undivided* root returns `None`, not the root (quad.py lines 236-237), so
the walk only satisfies the claim on divided quads. -/
theorem by_id_fixed_undivided_root (r : ℤ) :
    by_id_fixed (.leaf r) "" = .ok none := rfl

/-- The repaired walker does address quads of the divided example tree. -/
theorem by_id_fixed_walks :
    by_id_fixed dividedSquare10 "" = .ok (some dividedSquare10) ∧
      by_id_fixed dividedSquare10 "l" = .ok (some (.leaf 0)) ∧
      by_id_fixed dividedSquare10 "r" = .ok (some (.leaf 0)) :=
  ⟨rfl, rfl, rfl⟩

/-- C2: `Boundary.overlap` never returns a positive overlap for an attached
pair.  On any boundary with at least one attachment it raises `KeyError`
(the `add_edges` record stores the quad object and the integer as dict keys,
so `_find_edges`'s `item["quad"]` lookup fails, boundary.py lines 55 and
89); on an empty boundary it returns 0.0.  The claimed span formula is dead
code, and line 105 would anyway return 0.0 on every interior (branch-id)
boundary — see `overlap_interior_boundary_intent_zero`. -/
theorem overlap_never_positive :
    (∀ (x : Attachment) (bd : List Attachment) (T : Corners) (Q : Quad) (qa qb : List Pos),
        Boundary.overlap T Q (x :: bd) qa qb = .error .keyError) ∧
      (∀ (T : Corners) (Q : Quad) (qa qb : List Pos),
        Boundary.overlap T Q [] qa qb = .ok 0) :=
  ⟨fun _ _ _ _ _ _ => rfl, fun _ _ _ _ => rfl⟩

/-- With the attachment record repaired so that `_find_edges` can read it
(and the `below` base case repaired so that `boundary_id` and the lengths
can evaluate at all), `overlap` still returns 0 on the interior boundary of
the divided example square — the two leaves are attached with matching
boundary ids (the root's id, the empty string), yet line 105's guard
`if not self._id in ("a","b","c","d"): return 0.0` cuts every non-outer
boundary to zero before the span formula runs. -/
theorem overlap_interior_boundary_intent_zero :
    boundary_id_fixed dividedSquare10 [Pos.l] 1 = some "" ∧
      boundary_id_fixed dividedSquare10 [Pos.r] 3 = some "" ∧
      overlap_intent square10 dividedSquare10
        [⟨[Pos.l], 1⟩, ⟨[Pos.r], 3⟩] [Pos.l] [Pos.r] = 0 := by
  refine ⟨by decide, by decide, ?_⟩
  have hf : find_edges_intent [⟨[Pos.l], 1⟩, ⟨[Pos.r], 3⟩] [Pos.l] [Pos.r]
      = (some 1, some 3) := by decide
  have hid : boundary_id_head dividedSquare10 [⟨[Pos.l], 1⟩, ⟨[Pos.r], 3⟩] = some "" := by
    decide
  unfold overlap_intent
  rw [hf]
  unfold overlap_body
  rw [hid]
  dsimp only
  rw [if_pos (by decide)]

/-- C3: `calc_boundaries` on any divided root raises `AttributeError`
instead of returning a boundary mapping: the dict comprehension over the
nested `branches` tuple reaches a child's list/tuple value, which has no
`_id` (quad.py line 1160), and the later leaf loop would call the undefined
`Boundary.add_edge` (quad.py line 1165).  `graph(0.001)` (quad.py line
1182) calls `calc_boundaries` first and therefore raises as well. -/
theorem calc_boundaries_raises (r : ℤ) (d : ℚ × ℚ) (l rc : Quad) :
    calc_boundaries (.node r d l rc) = .error .attributeError := by
  cases l <;> rfl

/-- C7: the mod-4 rotation cycle is unobservable in the source.  `rotate()`
stores the incremented rotation modulo 4 (quad.py line 749) but then raises
`RecursionError` on every quad — `clean_cache` evaluates `self.below` on a
root (line 347) and `rotation()` evaluates it at line 751 otherwise — so no
`rotate()` call ever returns; and `coordinate()` raises at its opening
`if self.below:` (line 898), so no corner can be read before or after any
number of rotations. -/
theorem rotate_and_coordinate_raise (q : Quad) (T : Corners) (Q : Quad)
    (p : List Pos) (i : ℤ) :
    q.rotate = (q.withRot ((q.rot + 1) % 4), Except.error PyErr.recursionError) ∧
      coordinate T Q p i = .error .recursionError :=
  ⟨rfl, rfl⟩

/-- Supporting: under the `below` repair, four successive `rotate()` calls
on the quad at any path of any tree restore every `coordinate(i)` — the
stored rotation comes back to its value modulo 4 (quad.py lines 475-480,
747-753) and corner lookup only reads it modulo 4 (line 900). -/
theorem rotate_four_restores_coordinate_fixed :
    ∀ (p : List Pos) (T : Corners) (Q Q' : Quad),
      modifyAt rotateFour_fixed Q p = some Q' →
        ∀ i : ℤ, coordinate_fixed T Q' p i = coordinate_fixed T Q p i := by
  intro p
  induction p with
  | nil =>
    intro T Q Q' h i
    simp only [modifyAt, Option.some.injEq] at h
    subst h
    have hr : (rotateFour_fixed Q).rot
        = ((((Q.rot + 1) % 4 + 1) % 4 + 1) % 4 + 1) % 4 := by
      cases Q <;> rfl
    simp only [coordinate_fixed, coordFunAt_fixed, Option.map_some']
    congr 1
    unfold Corners.get
    have hm : (i + (rotateFour_fixed Q).rot) % 4 = (i + Q.rot) % 4 := by
      rw [hr]; omega
    rw [hm]
  | cons pos ps ih =>
    intro T Q Q' h i
    cases Q with
    | leaf r => simp [modifyAt] at h
    | node r d lc rc =>
      cases pos with
      | l =>
        simp only [modifyAt] at h
        rcases Option.map_eq_some'.mp h with ⟨lc', hm, hq⟩
        subst hq
        simp only [coordinate_fixed, coordFunAt_fixed]
        have h2 := ih (childTable (fun j => Corners.get T (j + r)) d Pos.l) lc lc' hm i
        simpa [coordinate_fixed] using h2
      | r =>
        simp only [modifyAt] at h
        rcases Option.map_eq_some'.mp h with ⟨rc', hm, hq⟩
        subst hq
        simp only [coordinate_fixed, coordFunAt_fixed]
        have h2 := ih (childTable (fun j => Corners.get T (j + r)) d Pos.r) rc rc' hm i
        simpa [coordinate_fixed] using h2

/-- Concrete instance of the repaired rotation cycle: rotating the left
child (stored rotation 5) of a divided square four times yields stored
rotation 1, and its corner 0 is unchanged. -/
theorem rotate_four_restores_coordinate_fixed_example :
    modifyAt rotateFour_fixed (.node 0 (1/2, 1/2) (.leaf 5) (.leaf 0)) [Pos.l] =
        some (.node 0 (1/2, 1/2) (.leaf 1) (.leaf 0)) ∧
      coordinate_fixed square10 (.node 0 (1/2, 1/2) (.leaf 1) (.leaf 0)) [Pos.l] 0 =
        coordinate_fixed square10 (.node 0 (1/2, 1/2) (.leaf 5) (.leaf 0)) [Pos.l] 0 :=
  ⟨rfl,
    rotate_four_restores_coordinate_fixed [Pos.l] square10
      (.node 0 (1/2, 1/2) (.leaf 5) (.leaf 0))
      (.node 0 (1/2, 1/2) (.leaf 1) (.leaf 0)) rfl 0⟩

/-- C1: the end-to-end scenario crashes in the source.  `divide([0.5, 0.5])`
on the root (a quad with no parent) raises `RecursionError` in `clean_cache`
(quad.py line 372, whose first condition evaluates `self.below`, line 347);
and on the divided tree that call was meant to produce, `coordinate_a` /
`coordinate_b` raise at their `self.below` checks (lines 994/1011) and
every `coordinate` / `area` call raises at `if self.below:` (line 898) — so
none of the claimed values `(5,0)`, `(5,10)`, the left child's corner list,
or area 50 is ever produced. -/
theorem divide_half_end_to_end_crashes :
    Quad.divide false (.leaf 0) (some (1/2, 1/2)) = .error .recursionError ∧
      Quad.coordinate_a dividedSquare10 = .error .recursionError ∧
      Quad.coordinate_b dividedSquare10 = .error .recursionError ∧
      coordinate square10 dividedSquare10 [Pos.l] 0 = .error .recursionError ∧
      area square10 dividedSquare10 [Pos.l] = .error .recursionError ∧
      area square10 dividedSquare10 [Pos.r] = .error .recursionError :=
  ⟨rfl, rfl, rfl, rfl, rfl, rfl⟩

/-- Supporting: under the `below` repair the written recurrences do produce
the claimed values — on the 10×10 root divided in half, `coordinate_a` is
`(5,0)` and `coordinate_b` is `(5,10)`, the left child's corners 0..3 are
`(0,0)`, `(5,0)`, `(5,10)`, `(0,10)`, and each child's Heron area is
exactly 50. -/
theorem divide_half_end_to_end_fixed :
    coordinate_a_fixed square10 dividedSquare10 [] = some (5, 0) ∧
      coordinate_b_fixed square10 dividedSquare10 [] = some (5, 10) ∧
      coordinate_fixed square10 dividedSquare10 [Pos.l] 0 = some (0, 0) ∧
      coordinate_fixed square10 dividedSquare10 [Pos.l] 1 = some (5, 0) ∧
      coordinate_fixed square10 dividedSquare10 [Pos.l] 2 = some (5, 10) ∧
      coordinate_fixed square10 dividedSquare10 [Pos.l] 3 = some (0, 10) ∧
      area_fixed square10 dividedSquare10 [Pos.l] = 50 ∧
      area_fixed square10 dividedSquare10 [Pos.r] = 50 := by
  have hc0 : coordinate_fixed square10 dividedSquare10 [Pos.l] 0 = some ((0:ℚ), (0:ℚ)) := by
    norm_num [dividedSquare10, Quad.divide_fixed, coordinate_fixed, coordFunAt_fixed,
      childTable, division_point_a, division_point_b, lerp, Quad.rot, Corners.get, square10]
  have hc1 : coordinate_fixed square10 dividedSquare10 [Pos.l] 1 = some ((5:ℚ), (0:ℚ)) := by
    norm_num [dividedSquare10, Quad.divide_fixed, coordinate_fixed, coordFunAt_fixed,
      childTable, division_point_a, division_point_b, lerp, Quad.rot, Corners.get, square10]
  have hc2 : coordinate_fixed square10 dividedSquare10 [Pos.l] 2 = some ((5:ℚ), (10:ℚ)) := by
    norm_num [dividedSquare10, Quad.divide_fixed, coordinate_fixed, coordFunAt_fixed,
      childTable, division_point_a, division_point_b, lerp, Quad.rot, Corners.get, square10]
  have hc3 : coordinate_fixed square10 dividedSquare10 [Pos.l] 3 = some ((0:ℚ), (10:ℚ)) := by
    norm_num [dividedSquare10, Quad.divide_fixed, coordinate_fixed, coordFunAt_fixed,
      childTable, division_point_a, division_point_b, lerp, Quad.rot, Corners.get, square10]
  have hr0 : coordinate_fixed square10 dividedSquare10 [Pos.r] 0 = some ((5:ℚ), (0:ℚ)) := by
    norm_num [dividedSquare10, Quad.divide_fixed, coordinate_fixed, coordFunAt_fixed,
      childTable, division_point_a, division_point_b, lerp, Quad.rot, Corners.get, square10]
  have hr1 : coordinate_fixed square10 dividedSquare10 [Pos.r] 1 = some ((10:ℚ), (0:ℚ)) := by
    norm_num [dividedSquare10, Quad.divide_fixed, coordinate_fixed, coordFunAt_fixed,
      childTable, division_point_a, division_point_b, lerp, Quad.rot, Corners.get, square10]
  have hr2 : coordinate_fixed square10 dividedSquare10 [Pos.r] 2 = some ((10:ℚ), (10:ℚ)) := by
    norm_num [dividedSquare10, Quad.divide_fixed, coordinate_fixed, coordFunAt_fixed,
      childTable, division_point_a, division_point_b, lerp, Quad.rot, Corners.get, square10]
  have hr3 : coordinate_fixed square10 dividedSquare10 [Pos.r] 3 = some ((5:ℚ), (10:ℚ)) := by
    norm_num [dividedSquare10, Quad.divide_fixed, coordinate_fixed, coordFunAt_fixed,
      childTable, division_point_a, division_point_b, lerp, Quad.rot, Corners.get, square10]
  have hB2 : Real.sqrt 125 ^ 2 = (125 : ℝ) := Real.sq_sqrt (by norm_num)
  have h1 : (10 + Real.sqrt 125 + 5) / 2 * ((10 + Real.sqrt 125 + 5) / 2 - 10) *
      ((10 + Real.sqrt 125 + 5) / 2 - Real.sqrt 125) * ((10 + Real.sqrt 125 + 5) / 2 - 5)
      = 625 := by
    linear_combination (-(Real.sqrt 125 ^ 2 - 125) / 16) * hB2
  have h2 : (5 + 10 + Real.sqrt 125) / 2 * ((5 + 10 + Real.sqrt 125) / 2 - 5) *
      ((5 + 10 + Real.sqrt 125) / 2 - 10) * ((5 + 10 + Real.sqrt 125) / 2 - Real.sqrt 125)
      = 625 := by
    linear_combination (-(Real.sqrt 125 ^ 2 - 125) / 16) * hB2
  refine ⟨?_, ?_, hc0, hc1, hc2, hc3, ?_, ?_⟩
  · norm_num [dividedSquare10, Quad.divide_fixed, coordinate_a_fixed, quadAt,
      coordFunAt_fixed, division_point_a, lerp, Quad.rot, Corners.get, square10]
  · norm_num [dividedSquare10, Quad.divide_fixed, coordinate_b_fixed, quadAt,
      coordFunAt_fixed, division_point_b, lerp, Quad.rot, Corners.get, square10]
  · unfold area_fixed
    rw [hc0, hc1, hc2, hc3]
    have e1 : distance_2d (some ((5:ℚ),(0:ℚ))) (some ((5:ℚ),(10:ℚ))) = 10 := by
      rw [distance_eval]; push_cast; norm_num
      exact sqrt_of_sq 10 100 (by norm_num) (by norm_num)
    have e2 : distance_2d (some ((0:ℚ),(0:ℚ))) (some ((5:ℚ),(10:ℚ))) = Real.sqrt 125 := by
      rw [distance_eval]; push_cast; norm_num
    have e3 : distance_2d (some ((0:ℚ),(0:ℚ))) (some ((5:ℚ),(0:ℚ))) = 5 := by
      rw [distance_eval]; push_cast; norm_num
      exact sqrt_of_sq 5 25 (by norm_num) (by norm_num)
    have e4 : distance_2d (some ((5:ℚ),(10:ℚ))) (some ((0:ℚ),(10:ℚ))) = 5 := by
      rw [distance_eval]; push_cast; norm_num
      exact sqrt_of_sq 5 25 (by norm_num) (by norm_num)
    have e5 : distance_2d (some ((0:ℚ),(0:ℚ))) (some ((0:ℚ),(10:ℚ))) = 10 := by
      rw [distance_eval]; push_cast; norm_num
      exact sqrt_of_sq 10 100 (by norm_num) (by norm_num)
    simp only [triangle_area]
    rw [e1, e2, e3, e4, e5, h1, h2, sqrt_of_sq 25 625 (by norm_num) (by norm_num)]
    norm_num
  · unfold area_fixed
    rw [hr0, hr1, hr2, hr3]
    have e6 : distance_2d (some ((10:ℚ),(0:ℚ))) (some ((10:ℚ),(10:ℚ))) = 10 := by
      rw [distance_eval]; push_cast; norm_num
      exact sqrt_of_sq 10 100 (by norm_num) (by norm_num)
    have e7 : distance_2d (some ((5:ℚ),(0:ℚ))) (some ((10:ℚ),(10:ℚ))) = Real.sqrt 125 := by
      rw [distance_eval]; push_cast; norm_num
    have e8 : distance_2d (some ((5:ℚ),(0:ℚ))) (some ((10:ℚ),(0:ℚ))) = 5 := by
      rw [distance_eval]; push_cast; norm_num
      exact sqrt_of_sq 5 25 (by norm_num) (by norm_num)
    have e9 : distance_2d (some ((10:ℚ),(10:ℚ))) (some ((5:ℚ),(10:ℚ))) = 5 := by
      rw [distance_eval]; push_cast; norm_num
      exact sqrt_of_sq 5 25 (by norm_num) (by norm_num)
    have e10 : distance_2d (some ((5:ℚ),(0:ℚ))) (some ((5:ℚ),(10:ℚ))) = 10 := by
      rw [distance_eval]; push_cast; norm_num
      exact sqrt_of_sq 10 100 (by norm_num) (by norm_num)
    simp only [triangle_area]
    rw [e6, e7, e8, e9, e10, h1, h2, sqrt_of_sq 25 625 (by norm_num) (by norm_num)]
    norm_num

end Urb
